import Mathlib

/-!
Verification development for the web-search chat route
(`app/api/web-search/route.ts`).

The route is a single `POST` handler: connectivity probe, body parse,
input validation, search fetch, result normalization, history
reconciliation, prompt assembly, completion call, and best-effort
persistence of two rows. The handler is embedded below as a pure
function from a request environment (the parsed body plus the outcome
each external call would have if issued) to the produced result and the
observable effects (which external calls were issued, which rows were
inserted, which errors were logged).
-/

namespace WebSearch

/-- Runtime JavaScript values flowing through the dynamically typed
fields of the request body. Numbers are modelled as integers: the
handler performs arithmetic only on sequence numbers and never inspects
fractional parts. -/
inductive JVal where
  | vnull
  | vstr (s : String)
  | vnum (n : Int)
  | vbool (b : Bool)
  deriving DecidableEq

/-- JavaScript truthiness of a value (`null`, `""`, `0` and `false` are
falsy). -/
def JVal.truthy : JVal → Bool
  | .vnull => false
  | .vstr s => s != ""
  | .vnum n => n != 0
  | .vbool b => b

/-- Truthiness of a possibly absent field (`undefined` is falsy). -/
def truthyO : Option JVal → Bool
  | some v => v.truthy
  | none => false

/-- Models the pattern `x || null` (lines 153 to 155): a falsy value is
coerced to `null`. -/
def jOrNull : Option JVal → JVal
  | some v => if v.truthy then v else .vnull
  | none => .vnull

/-- Models the pattern `x || d` (line 182 and line 211): the value when
truthy, otherwise the default. -/
def jOr (x : Option JVal) (d : JVal) : JVal :=
  match x with
  | some v => if v.truthy then v else d
  | none => d

/-- Models the pattern `x ?? d` (line 136): the value unless it is
`null` or `undefined`. -/
def jNullish (x : Option JVal) (d : JVal) : JVal :=
  match x with
  | some .vnull => d
  | some v => v
  | none => d

/-- String interpolation of a value, as in a template literal. -/
def JVal.interp : JVal → String
  | .vnull => "null"
  | .vstr s => s
  | .vnum n => toString n
  | .vbool b => if b then "true" else "false"

/-- Dynamic fields the handler reads off a history entry (either off
the envelope object `m.message` or off the entry itself); `none` models
an absent key (`undefined`). -/
structure MsgFields where
  role : Option JVal := none
  content : Option JVal := none
  chat_id : Option JVal := none
  user_id : Option JVal := none
  assistant_id : Option JVal := none
  sequence_number : Option JVal := none
  deriving DecidableEq

/-- One element of the `messages` array of the request body: possibly
an envelope `\x7bmessage: ...\x7d` around the fields, plus the fields
read off the entry itself when no envelope is present. An object-valued
`message` key is always truthy, so `m.message ?? m` (line 107) and
`m.message || m` (line 152) coincide on this model. -/
structure RawEntry where
  message : Option MsgFields := none
  flat : MsgFields := {}
  deriving DecidableEq

/-- Models `const msg = m.message ?? m` (line 107): unwrap one envelope
level, falling back to the entry itself. -/
def unwrapEntry (e : RawEntry) : MsgFields :=
  e.message.getD e.flat

/-- A chat-completion message as assembled by the handler (lines 118 to
131). Roles and contents built by the handler are string literals;
entries surviving the history filter carry the raw runtime values (the
type cast on line 110 has no runtime effect). -/
structure ChatMessage where
  role : JVal
  name : Option String := none
  content : JVal
  deriving DecidableEq

/-- The test `msg.role && msg.content` of line 108: both fields of the
unwrapped entry must be truthy. -/
def keepsEntry (e : RawEntry) : Bool :=
  truthyO (unwrapEntry e).role && truthyO (unwrapEntry e).content

/-- Projection of a kept entry to its `\x7brole, content\x7d` turn
(lines 109 to 112). The `getD` defaults are unreachable when the entry
is kept, since both fields are then present and truthy. -/
def turnOfEntry (e : RawEntry) : ChatMessage :=
  { role := (unwrapEntry e).role.getD .vnull
    content := (unwrapEntry e).content.getD .vnull }

/-- Models the map on lines 105 to 114: unwrap one envelope level, keep
the entry when `role` and `content` are truthy, otherwise produce
`null` (to be dropped by the filter on line 115). -/
def entryToTurn (e : RawEntry) : Option ChatMessage :=
  let msg := unwrapEntry e
  if truthyO msg.role && truthyO msg.content then
    some { role := msg.role.getD .vnull, content := msg.content.getD .vnull }
  else none

/-- Models the `.map ... .filter` chain of lines 104 to 115 on a
present array. -/
def historyList (ms : List RawEntry) : List ChatMessage :=
  ms.filterMap entryToTurn

/-- Models lines 103 to 116: the reconciled history, empty when
`messages` is absent or not an array. -/
def historyOf (messages : Option (List RawEntry)) : List ChatMessage :=
  match messages with
  | some ms => historyList ms
  | none => []

/-- One element of `i.images` in a raw search result item. -/
structure ImageDoc where
  url : Option String := none
  deriving DecidableEq

/-- One raw item of the search-provider response, with the fields the
normalization step reads (lines 84 to 92). -/
structure RawItem where
  type : Option String := none
  title : Option String := none
  url : Option String := none
  description : Option String := none
  images : Option (List ImageDoc) := none
  timestamp : Option String := none
  website_name : Option String := none
  deriving DecidableEq

/-- The `result[k]` object of a search-provider task. -/
structure ResultDoc where
  items : Option (List RawItem) := none
  deriving DecidableEq

/-- One task of the search-provider response. -/
structure TaskDoc where
  result : Option (List ResultDoc) := none
  deriving DecidableEq

/-- The parsed search-provider response document. -/
structure SearchDoc where
  tasks : Option (List TaskDoc) := none
  deriving DecidableEq

/-- Models `(df.tasks?.[0]?.result?.[0]?.items as any[]) || []`
(line 81). -/
def extractItems (df : SearchDoc) : List RawItem :=
  ((((df.tasks.bind List.head?).bind TaskDoc.result).bind
    List.head?).bind ResultDoc.items).getD []

/-- A normalized search result (lines 84 to 92); missing raw fields
stay `undefined`. -/
structure SearchResultItem where
  type : Option String := none
  title : Option String := none
  link : Option String := none
  snippet : Option String := none
  image : Option String := none
  date : Option String := none
  channel : Option String := none
  deriving DecidableEq

/-- Normalization of one raw item (lines 84 to 92):
`image` is `i.images?.[0]?.url` and `date` is
`i.timestamp?.split(" ")[0]` (a JavaScript split always yields at least
one piece, so index 0 is total). -/
def normalizeItem (i : RawItem) : SearchResultItem :=
  { type := i.type
    title := i.title
    link := i.url
    snippet := i.description
    image := (i.images.bind List.head?).bind ImageDoc.url
    date := i.timestamp.map (fun t => (t.splitOn " ").headD "")
    channel := i.website_name }

/-- Wraps a string in JSON double quotes. Escaping of special
characters inside the string is not modelled; no claim depends on it. -/
def quoteJson (s : String) : String :=
  "\"" ++ s ++ "\""

/-- The present (not `undefined`) fields of a normalized item, in the
declaration order `JSON.stringify` serializes them. -/
def itemPairs (i : SearchResultItem) : List (String × String) :=
  ([("type", i.type), ("title", i.title), ("link", i.link),
    ("snippet", i.snippet), ("image", i.image), ("date", i.date),
    ("channel", i.channel)]).filterMap
    (fun p => p.2.map (fun v => (p.1, v)))

/-- Serialization of one item as it appears at depth 1 of
`JSON.stringify(search_results, null, 2)`. -/
def stringifyItem (i : SearchResultItem) : String :=
  match itemPairs i with
  | [] => "\x7b\x7d"
  | ps => "\x7b\n" ++
      String.intercalate ",\n"
        (ps.map (fun p => "    " ++ quoteJson p.1 ++ ": " ++ quoteJson p.2)) ++
      "\n  \x7d"

/-- Models `JSON.stringify(search_results, null, 2)` (line 126): the
empty list serializes to `"[]"`, a non-empty one to a two-space
indented array of objects. -/
def stringifyResults (rs : List SearchResultItem) : String :=
  match rs.map stringifyItem with
  | [] => "[]"
  | ss => "[\n" ++ String.intercalate ",\n" (ss.map (fun s => "  " ++ s)) ++ "\n]"

/-- The fixed system message (lines 119 to 122). -/
def systemMsg : ChatMessage :=
  { role := .vstr "system"
    content := .vstr "You are ChatGPT, a helpful assistant. You have access to up-to-date web search results below. Use them to answer the user\x27s question fully—choose whatever structure best fits the topic. Cite sources by number when relevant." }

/-- The tool-context assistant message carrying the serialized search
results (lines 123 to 127). -/
def toolMsg (search_results : List SearchResultItem) : ChatMessage :=
  { role := .vstr "assistant"
    name := some "web_search_tool"
    content := .vstr (stringifyResults search_results) }

/-- The user message restating the query (lines 128 to 131). -/
def userMsg (query : JVal) : ChatMessage :=
  { role := .vstr "user"
    content := .vstr ("User asked: \"" ++ query.interp ++ "\". Use the search results above to craft your reply.") }

/-- The `chatSettings` object of the request body. -/
structure ChatSettings where
  model : Option JVal := none
  temperature : Option JVal := none
  deriving DecidableEq

/-- The parsed JSON request body destructured on line 70.
`messages = none` models both an absent key and any non-array value,
since `Array.isArray` guards every use of it. -/
structure ReqBody where
  query : Option JVal := none
  chatSettings : Option ChatSettings := none
  messages : Option (List RawEntry) := none
  deriving DecidableEq

/-- The `message` object of one completion choice. -/
structure ChoiceMsg where
  content : Option String := none
  deriving DecidableEq

/-- One choice of the completion response. -/
structure Choice where
  message : Option ChoiceMsg := none
  deriving DecidableEq

/-- The completion-provider response document. -/
structure CompletionResp where
  choices : List Choice := []
  deriving DecidableEq

/-- Models `resp.choices[0]?.message?.content ?? ""` (line 201). -/
def assistantContentOf (resp : CompletionResp) : String :=
  (((resp.choices.head?).bind Choice.message).bind ChoiceMsg.content).getD ""

/-- The request handed to the completion provider (lines 134 to 141). -/
structure CompletionRequest where
  model : String
  temperature : JVal
  max_tokens : Nat
  messages : List ChatMessage
  deriving DecidableEq

/-- One row handed to the message store by
`supabaseServiceRole.from("messages").insert` (lines 173 to 186 and
202 to 215). -/
structure InsertRow where
  chat_id : JVal
  user_id : JVal
  assistant_id : JVal
  role : String
  content : JVal
  model : JVal
  sequence_number : Int
  image_paths : List String
  deriving DecidableEq

/-- The ambient world one request runs against: configuration plus the
outcome each external call would have if issued. Outcomes are latent;
they take effect only where the handler actually performs the call. A
`body` of `.error` models `req.json()` throwing on an unparsable body;
a `searchResult` of `.error msg` models `fetchSearchResults` throwing
an error whose message is `msg` (a non-ok response throws on line 53
and a transport failure also raises); a `completionOutcome` of
`.error msg` models the completion call raising. -/
structure Env where
  deployment : String
  connectionOk : Bool
  body : Except Unit ReqBody
  searchResult : Except String SearchDoc
  completionOutcome : Except String CompletionResp
  userInsertError : Bool
  assistantInsertError : Bool

/-- Observable effects of one run: which provider calls were issued
(the connectivity probe is issued unconditionally at entry and is
therefore not recorded), the completion request if one was built, the
normalized results, the rows handed to the message store in order, and
the error-log lines emitted. -/
structure Effects where
  searchCalled : Bool
  completionCalled : Bool
  completionRequest : Option CompletionRequest
  searchResults : Option (List SearchResultItem)
  inserts : List InsertRow
  errorLogs : List String
  deriving DecidableEq

/-- The effects of a run that issued no provider call past the probe. -/
def noEffects : Effects :=
  { searchCalled := false
    completionCalled := false
    completionRequest := none
    searchResults := none
    inserts := []
    errorLogs := [] }

/-- A JSON response body: either an error payload or a message
payload. -/
inductive RespBody where
  | errBody (error : String)
  | msgBody (message : String)
  deriving DecidableEq

/-- An HTTP response with its status code. -/
structure HttpResponse where
  status : Nat
  body : RespBody
  deriving DecidableEq

/-- What a request produces: a JSON response, or an exception escaping
the handler uncaught (only `req.json()` on line 70 can throw outside
the try/catch boundary). -/
inductive HandlerResult where
  | response (r : HttpResponse)
  | uncaught
  deriving DecidableEq

/-- Models `err.message || "Unexpected server error"` (line 233). -/
def caughtMessage (msg : String) : String :=
  if msg = "" then "Unexpected server error" else msg

/-- The offline error message returned with status 503 (line 63). -/
def offlineMessage : String :=
  "🚫 I\x27m not connected to the internet. Please try again later."

/-- Models `chatSettings?.model || AZURE_DEPLOYMENT` (lines 182 and
211). -/
def rowModel (deployment : String) (cs : Option ChatSettings) : JVal :=
  jOr (cs.bind ChatSettings.model) (.vstr deployment)

/-- Models lines 145 to 160, fourth component: the sequence cursor read
off the last history entry, falling back to `messages.length - 1` when
no numeric `sequence_number` is present, and 0 when the history is
absent or empty. -/
def derivedSeq (messages : Option (List RawEntry)) : Int :=
  match messages with
  | some ms =>
    match ms.getLast? with
    | some last =>
      match (unwrapEntry last).sequence_number with
      | some (.vnum n) => n
      | _ => (ms.length : Int) - 1
    | none => 0
  | none => 0

/-- Models lines 145 to 155: the `chat_id` read off the last history
entry, with falsy values coerced to `null`. -/
def derivedChatId (messages : Option (List RawEntry)) : JVal :=
  match messages with
  | some ms =>
    match ms.getLast? with
    | some last => jOrNull (unwrapEntry last).chat_id
    | none => .vnull
  | none => .vnull

/-- Models lines 145 to 155: the `user_id` read off the last history
entry, with falsy values coerced to `null`. -/
def derivedUserId (messages : Option (List RawEntry)) : JVal :=
  match messages with
  | some ms =>
    match ms.getLast? with
    | some last => jOrNull (unwrapEntry last).user_id
    | none => .vnull
  | none => .vnull

/-- Models lines 145 to 155: the `assistant_id` read off the last
history entry, with falsy values coerced to `null`. -/
def derivedAssistantId (messages : Option (List RawEntry)) : JVal :=
  match messages with
  | some ms =>
    match ms.getLast? with
    | some last => jOrNull (unwrapEntry last).assistant_id
    | none => .vnull
  | none => .vnull

/-- The `POST` handler of `app/api/web-search/route.ts` as a function
of the request environment. Returns the result the caller observes
together with the observable effects. The `m !== null` filter on
lines 138 to 140 is the identity at runtime, since `null` entries were
already removed by the filter on line 115; the preamble and history are
therefore concatenated directly. -/
def POST (env : Env) : HandlerResult × Effects :=
  -- 1) check network (lines 60 to 67)
  if env.connectionOk = false then
    (.response { status := 503, body := .errBody offlineMessage }, noEffects)
  else
    -- 2) parse body (line 70); a parse failure throws outside the try/catch
    match env.body with
    | .error _ => (.uncaught, noEffects)
    | .ok body =>
      if truthyO body.query = false then
        (.response { status := 400, body := .errBody "Missing `query` in request body" },
          noEffects)
      else
        -- 3) fetch the SERP (line 80); a throw is caught on lines 230 to 236
        match env.searchResult with
        | .error msg =>
          (.response { status := 500, body := .errBody (caughtMessage msg) },
            { noEffects with
                searchCalled := true
                errorLogs := ["web-search error:"] })
        | .ok df =>
          -- 4) normalize (lines 81 to 92)
          let search_results := (extractItems df).map normalizeItem
          -- 6) map incoming history (lines 103 to 116)
          let history := historyOf body.messages
          -- 7) and 8) assemble and call (lines 118 to 141)
          let request : CompletionRequest :=
            { model := env.deployment
              temperature := jNullish (body.chatSettings.bind ChatSettings.temperature) (.vnum 0)
              max_tokens := 1200
              messages := systemMsg :: toolMsg search_results ::
                userMsg (body.query.getD .vnull) :: history }
          match env.completionOutcome with
          | .error msg =>
            (.response { status := 500, body := .errBody (caughtMessage msg) },
              { noEffects with
                  searchCalled := true
                  completionCalled := true
                  completionRequest := some request
                  searchResults := some search_results
                  errorLogs := ["web-search error:"] })
          | .ok resp =>
            -- persistence (lines 143 to 227)
            let chat_id := derivedChatId body.messages
            let user_id := derivedUserId body.messages
            let assistant_id := derivedAssistantId body.messages
            let lastSeq := derivedSeq body.messages
            let modelV := rowModel env.deployment body.chatSettings
            let assistantContent := assistantContentOf resp
            let userAttempted := chat_id.truthy && user_id.truthy && truthyO body.query
            let assistantAttempted := chat_id.truthy && user_id.truthy && (assistantContent != "")
            (.response { status := 200, body := .msgBody assistantContent },
              { searchCalled := true
                completionCalled := true
                completionRequest := some request
                searchResults := some search_results
                inserts :=
                  (if userAttempted then
                    [{ chat_id := chat_id, user_id := user_id,
                       assistant_id := assistant_id, role := "user",
                       content := body.query.getD .vnull, model := modelV,
                       sequence_number := lastSeq + 1, image_paths := [] }]
                  else []) ++
                  (if assistantAttempted then
                    [{ chat_id := chat_id, user_id := user_id,
                       assistant_id := assistant_id, role := "assistant",
                       content := .vstr assistantContent, model := modelV,
                       sequence_number := lastSeq + 2, image_paths := [] }]
                  else [])
                errorLogs :=
                  (if userAttempted && env.userInsertError then
                    ["[WebSearch API] User message insert error:"]
                  else []) ++
                  (if assistantAttempted && env.assistantInsertError then
                    ["[WebSearch API] Assistant message insert error:"]
                  else []) })

/-- The sequence cursor as the amended claim C1 states it, written from
the amended words: the `sequence_number` of the (unwrapped) last history
entry when that value is a number, otherwise the length of the history
minus one; 0 for an empty history. -/
def claimCursor (ms : List RawEntry) : Int :=
  match ms.getLast? with
  | some last =>
    match (unwrapEntry last).sequence_number with
    | some (.vnum n) => n
    | _ => (ms.length : Int) - 1
  | none => 0

/-- A concrete environment whose connectivity probe fails. -/
def envOffline : Env :=
  { deployment := "gpt-45-turbo"
    connectionOk := false
    body := .ok {}
    searchResult := .ok {}
    completionOutcome := .ok {}
    userInsertError := false
    assistantInsertError := false }

/-- A concrete request whose body has no `query` and whose connectivity
probe fails. -/
def envMissingQueryOffline : Env :=
  { deployment := "gpt-45-turbo"
    connectionOk := false
    body := .ok { query := none }
    searchResult := .ok {}
    completionOutcome := .ok {}
    userInsertError := false
    assistantInsertError := false }

/-- A concrete request whose body has no `query`, with a reachable
search provider. -/
def envMissingQuery : Env :=
  { deployment := "gpt-45-turbo"
    connectionOk := true
    body := .ok {}
    searchResult := .ok {}
    completionOutcome := .ok {}
    userInsertError := false
    assistantInsertError := false }

/-- A concrete request whose body cannot be parsed as JSON, with a
reachable search provider. -/
def envParseFail : Env :=
  { deployment := "gpt-45-turbo"
    connectionOk := true
    body := .error ()
    searchResult := .ok {}
    completionOutcome := .ok {}
    userInsertError := false
    assistantInsertError := false }

/-- A history entry wrapped in an envelope, exposing role and content. -/
def envelopeEntry : RawEntry :=
  { message := some { role := some (.vstr "assistant"),
                      content := some (.vstr "prior reply") } }

/-- A flat history entry with a content but no role, to be dropped by
the history filter. -/
def junkEntry : RawEntry :=
  { flat := { content := some (.vstr "no role here") } }

/-- One raw search item matching the worked example of the spec. -/
def itemParis : RawItem :=
  { type := some "organic"
    title := some "Paris Weather"
    url := some "https://x"
    description := some "snippet text"
    timestamp := some "2024-01-01 00:00:00"
    website_name := some "x.com" }

/-- A search response carrying exactly one item. -/
def docOneItem : SearchDoc :=
  { tasks := some [{ result := some [{ items := some [itemParis] }] }] }

/-- A search response whose result carries an explicit empty items
array. -/
def docEmptyItems : SearchDoc :=
  { tasks := some [{ result := some [{ items := some [] }] }] }

/-- A request body with a query and a mixed history: one enveloped
entry and one entry lacking a role. -/
def assembledBody : ReqBody :=
  { query := some (.vstr "weather in Paris")
    messages := some [envelopeEntry, junkEntry] }

/-- A concrete full-pipeline run with a mixed history and one search
item. -/
def envAssembled : Env :=
  { deployment := "gpt-45-turbo"
    connectionOk := true
    body := .ok assembledBody
    searchResult := .ok docOneItem
    completionOutcome := .ok { choices := [{ message := some { content := some "It is sunny." } }] }
    userInsertError := false
    assistantInsertError := false }

/-- A concrete run whose search response carries zero items. -/
def envEmptyItems : Env :=
  { deployment := "gpt-45-turbo"
    connectionOk := true
    body := .ok { query := some (.vstr "weather in Paris") }
    searchResult := .ok docEmptyItems
    completionOutcome := .ok { choices := [{ message := some { content := some "No sources found." } }] }
    userInsertError := false
    assistantInsertError := false }

/-- A concrete run whose completion call raises. -/
def envCompletionFail : Env :=
  { deployment := "gpt-45-turbo"
    connectionOk := true
    body := .ok { query := some (.vstr "weather in Paris") }
    searchResult := .ok {}
    completionOutcome := .error "The completion call failed"
    userInsertError := false
    assistantInsertError := false }

/-- A history entry carrying identifying fields but no explicit
`sequence_number`. -/
def seqEntry : RawEntry :=
  { flat := { role := some (.vstr "user")
              content := some (.vstr "hello")
              chat_id := some (.vstr "chat-1")
              user_id := some (.vstr "user-1") } }

/-- A concrete run with a one-entry history that has identifying fields
and no numeric `sequence_number`, so both rows are inserted and the
cursor takes its fallback value. -/
def envSeqFallback : Env :=
  { deployment := "gpt-45-turbo"
    connectionOk := true
    body := .ok { query := some (.vstr "weather"), messages := some [seqEntry] }
    searchResult := .ok {}
    completionOutcome := .ok { choices := [{ message := some { content := some "An answer." } }] }
    userInsertError := false
    assistantInsertError := false }

/-- A concrete run reaching persistence with identifying fields
present, used to compare runs whose insert outcomes differ. -/
def envPersist : Env :=
  { deployment := "gpt-45-turbo"
    connectionOk := true
    body := .ok { query := some (.vstr "weather"), messages := some [seqEntry] }
    searchResult := .ok {}
    completionOutcome := .ok { choices := [{ message := some { content := some "An answer." } }] }
    userInsertError := false
    assistantInsertError := false }

/-- A history entry whose unwrapped form has a truthy role but an empty
(falsy) content. -/
def emptyContentEntry : RawEntry :=
  { flat := { role := some (.vstr "user"), content := some (.vstr "") } }

/-- The user-role row the run `envSeqFallback` hands to the message
store. -/
def seqUserRow : InsertRow :=
  { chat_id := .vstr "chat-1"
    user_id := .vstr "user-1"
    assistant_id := .vnull
    role := "user"
    content := .vstr "weather"
    model := .vstr "gpt-45-turbo"
    sequence_number := 1
    image_paths := [] }

/-- Rewrites the map step of the history filter into its guarded form:
an entry maps to its turn exactly when it is kept. -/
theorem entryToTurn_eq (e : RawEntry) :
    entryToTurn e = if keepsEntry e then some (turnOfEntry e) else none := rfl

/-- The sequence cursor the handler derives from a present history
coincides with the cursor of the amended claim C1. -/
theorem derivedSeq_eq_claimCursor (ms : List RawEntry) :
    derivedSeq (some ms) = claimCursor ms := by
  cases h : ms.getLast? <;> simp [derivedSeq, claimCursor, h]

/-- Claim C3: when the connectivity probe fails, the handler returns
status 503 with the offline error message, and neither the
search-provider query nor the completion call is issued. -/
theorem connectivity_failure_short_circuits (env : Env)
    (h : env.connectionOk = false) :
    (POST env).1 = .response { status := 503, body := .errBody offlineMessage } ∧
    (POST env).2.searchCalled = false ∧
    (POST env).2.completionCalled = false := by
  simp [POST, h, noEffects]

/-- Concrete run discharging the hypotheses of
`connectivity_failure_short_circuits`. -/
theorem connectivity_failure_short_circuits_witness :
    (POST envOffline).1 = .response { status := 503, body := .errBody offlineMessage } ∧
    (POST envOffline).2.searchCalled = false ∧
    (POST envOffline).2.completionCalled = false :=
  connectivity_failure_short_circuits envOffline rfl

/-- Claim C2, counterexample: a request whose body has no `query` but
whose connectivity probe fails is answered with status 503, not 400 —
the probe runs before validation, so the claim does not hold for every
request with an absent or empty query. -/
theorem missing_query_offline_counterexample :
    (POST envMissingQueryOffline).1 =
      .response { status := 503, body := .errBody offlineMessage } ∧
    (503 : Nat) ≠ 400 :=
  ⟨rfl, by decide⟩

/-- Claim C2 (amended): when the connectivity probe succeeds, a request
whose `query` is absent or empty is answered with status 400 and an
error body, and neither the search-provider query nor the completion
call is issued. -/
theorem missing_query_rejected (env : Env) {body : ReqBody}
    (hc : env.connectionOk = true) (hb : env.body = .ok body)
    (hq : truthyO body.query = false) :
    (POST env).1 =
      .response { status := 400, body := .errBody "Missing `query` in request body" } ∧
    (POST env).2.searchCalled = false ∧
    (POST env).2.completionCalled = false := by
  simp [POST, hc, hb, hq, noEffects]

/-- Concrete run discharging the hypotheses of
`missing_query_rejected`. -/
theorem missing_query_rejected_witness :
    (POST envMissingQuery).1 =
      .response { status := 400, body := .errBody "Missing `query` in request body" } ∧
    (POST envMissingQuery).2.searchCalled = false ∧
    (POST envMissingQuery).2.completionCalled = false :=
  missing_query_rejected envMissingQuery rfl rfl rfl

/-- Claim C9: body parsing happens after the connectivity probe and
outside the try/catch boundary, so with a reachable search provider an
unparsable body escapes the handler uncaught — no response (neither the
400 validation response nor the generic 500) is produced and no effect
occurs. -/
theorem parse_failure_escapes (env : Env)
    (hc : env.connectionOk = true) (hb : env.body = .error ()) :
    (POST env).1 = .uncaught ∧ (POST env).2 = noEffects ∧
    ∀ r : HttpResponse, (POST env).1 ≠ .response r := by
  simp [POST, hc, hb]

/-- Concrete run discharging the hypotheses of
`parse_failure_escapes`. -/
theorem parse_failure_escapes_witness :
    (POST envParseFail).1 = .uncaught ∧ (POST envParseFail).2 = noEffects ∧
    ∀ r : HttpResponse, (POST envParseFail).1 ≠ .response r :=
  parse_failure_escapes envParseFail rfl rfl

/-- Claim C4: every request that reaches the completion call hands the
provider exactly the fixed preamble — system message, tool-context
assistant message, user message — followed by the filtered history, in
that order, whatever the supplied history contains. -/
theorem completion_message_order (env : Env) {body : ReqBody} {df : SearchDoc}
    (hc : env.connectionOk = true) (hb : env.body = .ok body)
    (hq : truthyO body.query = true) (hs : env.searchResult = .ok df) :
    ((POST env).2.completionRequest).map CompletionRequest.messages =
      some (systemMsg :: toolMsg ((extractItems df).map normalizeItem) ::
        userMsg (body.query.getD .vnull) :: historyOf body.messages) := by
  cases hco : env.completionOutcome <;>
    simp [POST, hc, hb, hq, hs, hco]

/-- Concrete run discharging the hypotheses of
`completion_message_order`. -/
theorem completion_message_order_witness :
    ((POST envAssembled).2.completionRequest).map CompletionRequest.messages =
      some (systemMsg :: toolMsg ((extractItems docOneItem).map normalizeItem) ::
        userMsg (assembledBody.query.getD .vnull) :: historyOf assembledBody.messages) :=
  completion_message_order envAssembled rfl rfl (by decide) rfl

/-- Claim C5: the history step unwraps each entry one envelope level
and keeps exactly the unwrapped entries exposing a truthy `role` and a
truthy `content`, in their original order — filtering the raw list and
then projecting each survivor to its turn yields the assembled
history. -/
theorem history_filter_characterization (ms : List RawEntry) :
    historyList ms = (ms.filter keepsEntry).map turnOfEntry := by
  induction ms with
  | nil => rfl
  | cons e t ih =>
    by_cases h : keepsEntry e
    · simp [historyList, List.filterMap_cons, List.filter_cons, entryToTurn_eq, h] at ih ⊢
      exact ih
    · simp [historyList, List.filterMap_cons, List.filter_cons, entryToTurn_eq, h] at ih ⊢
      exact ih

/-- Claim C6: a search response carrying zero items (or no items array
at all) yields an empty normalized result list and a tool-context
message whose content is the string "[]", and the completion call still
proceeds. -/
theorem empty_search_results_proceed (env : Env) {body : ReqBody} {df : SearchDoc}
    (hc : env.connectionOk = true) (hb : env.body = .ok body)
    (hq : truthyO body.query = true) (hs : env.searchResult = .ok df)
    (hitems : extractItems df = []) :
    (POST env).2.searchResults = some [] ∧
    ((POST env).2.completionRequest).bind (fun r => r.messages.get? 1) =
      some { role := .vstr "assistant", name := some "web_search_tool",
             content := .vstr "[]" } ∧
    (POST env).2.completionCalled = true := by
  cases hco : env.completionOutcome <;>
    simp [POST, hc, hb, hq, hs, hco, hitems, toolMsg, stringifyResults]

/-- Concrete run discharging the hypotheses of
`empty_search_results_proceed`. -/
theorem empty_search_results_proceed_witness :
    (POST envEmptyItems).2.searchResults = some [] ∧
    ((POST envEmptyItems).2.completionRequest).bind (fun r => r.messages.get? 1) =
      some { role := .vstr "assistant", name := some "web_search_tool",
             content := .vstr "[]" } ∧
    (POST envEmptyItems).2.completionCalled = true :=
  empty_search_results_proceed envEmptyItems rfl rfl (by decide) rfl rfl

/-- Claim C7: a completion-provider failure yields status 500 with a
body carrying the provider error text (when one is available), and no
assistant-role row is inserted into the message store. -/
theorem completion_failure_500 (env : Env) {body : ReqBody} {df : SearchDoc}
    {msg : String}
    (hc : env.connectionOk = true) (hb : env.body = .ok body)
    (hq : truthyO body.query = true) (hs : env.searchResult = .ok df)
    (hf : env.completionOutcome = .error msg) (hm : msg ≠ "") :
    (POST env).1 = .response { status := 500, body := .errBody msg } ∧
    ∀ r ∈ (POST env).2.inserts, r.role ≠ "assistant" := by
  simp [POST, hc, hb, hq, hs, hf, caughtMessage, hm, noEffects]

/-- Concrete run discharging the hypotheses of
`completion_failure_500`. -/
theorem completion_failure_500_witness :
    (POST envCompletionFail).1 =
      .response { status := 500, body := .errBody "The completion call failed" } ∧
    ∀ r ∈ (POST envCompletionFail).2.inserts, r.role ≠ "assistant" :=
  completion_failure_500 envCompletionFail rfl rfl (by decide) rfl rfl (by decide)

/-- Claim C8: database insert failures are silent — whichever inserts
fail, the handler returns the same response it returns when both
succeed, namely status 200 with the completion text, and the attempted
rows are the same; only the error log differs. -/
theorem insert_failures_silent (env : Env) (b b' : Bool) {body : ReqBody}
    {df : SearchDoc} {resp : CompletionResp}
    (hc : env.connectionOk = true) (hb : env.body = .ok body)
    (hq : truthyO body.query = true) (hs : env.searchResult = .ok df)
    (hr : env.completionOutcome = .ok resp) :
    (POST { env with userInsertError := b, assistantInsertError := b' }).1 =
      (POST { env with userInsertError := false, assistantInsertError := false }).1 ∧
    (POST { env with userInsertError := b, assistantInsertError := b' }).1 =
      .response { status := 200, body := .msgBody (assistantContentOf resp) } ∧
    (POST { env with userInsertError := b, assistantInsertError := b' }).2.inserts =
      (POST { env with userInsertError := false, assistantInsertError := false }).2.inserts := by
  simp [POST, hc, hb, hq, hs, hr]

/-- Concrete run discharging the hypotheses of
`insert_failures_silent`, with both inserts failing. -/
theorem insert_failures_silent_witness :
    (POST { envPersist with userInsertError := true, assistantInsertError := true }).1 =
      (POST { envPersist with userInsertError := false, assistantInsertError := false }).1 ∧
    (POST { envPersist with userInsertError := true, assistantInsertError := true }).1 =
      .response { status := 200, body := .msgBody (assistantContentOf { choices := [{ message := some { content := some "An answer." } }] }) } ∧
    (POST { envPersist with userInsertError := true, assistantInsertError := true }).2.inserts =
      (POST { envPersist with userInsertError := false, assistantInsertError := false }).2.inserts :=
  insert_failures_silent envPersist true true rfl rfl (by decide) rfl rfl

/-- Claim C1, counterexample: a one-entry history without a numeric
`sequence_number` and with identifying fields present. The claim
predicts a fallback cursor equal to the history length 1 and therefore
rows at sequence numbers 2 and 3; the handler inserts the rows with
sequence numbers 1 and 2. -/
theorem sequence_fallback_counterexample :
    (POST envSeqFallback).2.inserts.map InsertRow.sequence_number = [1, 2] ∧
    (POST envSeqFallback).2.inserts.map InsertRow.sequence_number ≠ [2, 3] := by
  constructor
  · rfl
  · intro h
    rw [show (POST envSeqFallback).2.inserts.map InsertRow.sequence_number = [1, 2] from rfl] at h
    simp at h

/-- Claim C1 (amended): with a non-empty history, the persistence
cursor is the last unwrapped entry's `sequence_number` when that is a
number and otherwise the history length minus one; every inserted
user-role row carries `cursor + 1` and every inserted assistant-role
row carries `cursor + 2`. -/
theorem sequence_numbers_from_cursor (env : Env) {body : ReqBody} {df : SearchDoc}
    {resp : CompletionResp} {ms : List RawEntry}
    (hc : env.connectionOk = true) (hb : env.body = .ok body)
    (hq : truthyO body.query = true) (hs : env.searchResult = .ok df)
    (hr : env.completionOutcome = .ok resp)
    (hm : body.messages = some ms) (hne : ms ≠ []) :
    ∀ r ∈ (POST env).2.inserts,
      (r.role = "user" → r.sequence_number = claimCursor ms + 1) ∧
      (r.role = "assistant" → r.sequence_number = claimCursor ms + 2) := by
  intro r hrmem
  simp [POST, hc, hb, hq, hs, hr, hm] at hrmem
  rcases hrmem with ⟨-, rfl⟩ | ⟨-, rfl⟩
  · exact ⟨fun _ => by simp [derivedSeq_eq_claimCursor],
      fun hrole => by simp at hrole⟩
  · exact ⟨fun hrole => by simp at hrole,
      fun _ => by simp [derivedSeq_eq_claimCursor]⟩

/-- Concrete run discharging the hypotheses of
`sequence_numbers_from_cursor`: the user-role row of `envSeqFallback`
is among the inserted rows and carries the amended cursor plus one. -/
theorem sequence_numbers_from_cursor_witness :
    seqUserRow ∈ (POST envSeqFallback).2.inserts ∧
    (seqUserRow.role = "user" → seqUserRow.sequence_number = claimCursor [seqEntry] + 1) ∧
    (seqUserRow.role = "assistant" → seqUserRow.sequence_number = claimCursor [seqEntry] + 2) :=
  ⟨by decide,
    sequence_numbers_from_cursor envSeqFallback rfl rfl (by decide) rfl rfl rfl
      (by simp) seqUserRow (by decide)⟩

/-- Claim C10: an entry whose unwrapped form has a truthy `role` but a
falsy `content` (for example the empty string) contributes nothing to
the assembled history, wherever it occurs — the filter tests
truthiness, not mere presence. -/
theorem falsy_content_excluded (e : RawEntry) (l r : List RawEntry)
    (hrole : truthyO (unwrapEntry e).role = true)
    (hcontent : truthyO (unwrapEntry e).content = false) :
    historyList (l ++ e :: r) = historyList (l ++ r) := by
  have he : entryToTurn e = none := by
    rw [entryToTurn_eq]
    simp [keepsEntry, hcontent]
  simp [historyList, List.filterMap_append, List.filterMap_cons, he]

/-- Concrete run discharging the hypotheses of
`falsy_content_excluded`: a present-but-empty content is excluded. -/
theorem falsy_content_excluded_witness :
    truthyO (unwrapEntry emptyContentEntry).role = true ∧
    truthyO (unwrapEntry emptyContentEntry).content = false ∧
    historyList ([] ++ emptyContentEntry :: []) = historyList ([] ++ []) :=
  ⟨by decide, by decide,
    falsy_content_excluded emptyContentEntry [] [] (by decide) (by decide)⟩

end WebSearch
